import Mathlib

/-!
# Verification of the one-time SSH daemon core

Shallow embedding of the lifecycle coordinator (`newOneTimeServer` /
`ListenAndServe` and the `sync.Once` gate), the terminal-I/O bridge
(`handleSSHSession`), the authorized-keys loader
(`parseAuthorizedKeysFile`), and the orchestrator tail (`run` / `main`).

Modelling conventions:
* SSH public keys are identifiers (`Nat`); `ssh.KeysEqual` is byte equality
  of the marshalled keys, so it is equality of identifiers.
* `sync.Once.Do` is atomic and mutually exclusive: concurrent callers
  linearize, exactly the first caller runs the body and all others wait and
  then skip.  An interleaving of concurrently fired triggers is therefore
  embedded as a finite list of events processed sequentially.
* Byte streams are `List Nat`; fallible external I/O operations are fed to
  the loop as explicit per-iteration results (`LoopStep`), so the loop
  body itself is the code under verification.
-/

namespace Otsshd

/-- `sync.Once` state of the one-time server: `Idle` before the shared
one-shot guard has fired, `Closed` afterwards. -/
inductive GateState
  | Idle
  | Closed
deriving DecidableEq, Repr

/-- Result of `cmd.Wait()` on the child: `clean` is a `nil` error,
`abnormal code` is an `*exec.ExitError` carrying the child's exit code. -/
inductive WaitResult
  | clean
  | abnormal (code : Nat)
deriving DecidableEq, Repr

/-- A Go `error` value as far as the orchestrator can distinguish it:
`exitError code` is an `*exec.ExitError` (found by `errors.As` in `main`),
`other msg` is any other non-nil error. -/
inductive GoError
  | exitError (code : Nat)
  | other (msg : String)
deriving DecidableEq, Repr

/-- Result of one `r.Read(b)` on the pseudoterminal master in
`handleSSHSession`: `ok data` reads `data` into the zeroed 1024-byte
buffer, `pathError` is the `*os.PathError` returned once the child has
exited and the device is gone, `otherError` is any other read error. -/
inductive ReadResult
  | ok (data : List Nat)
  | pathError
  | otherError (msg : String)
deriving DecidableEq, Repr

/-- One iteration's worth of external I/O results for the child-to-peer
loop: the pseudoterminal read result, and whether the transcript write
(`logWriter.Write(b)`) and the peer write (`s.Write(b)`) succeed if
attempted. -/
structure LoopStep where
  readRes : ReadResult
  logOk : Bool
  sessOk : Bool
deriving DecidableEq, Repr

/-- The buffer the loop actually writes for a read that returned `data`:
`b := make([]byte, 1024)` is zero-filled, `r.Read(b)` fills a front chunk
and the read count is discarded, so the whole 1024-byte buffer is written. -/
def chunkBuf (data : List Nat) : List Nat :=
  data ++ List.replicate (1024 - data.length) 0

/-- An observable write performed by the child-to-peer loop: a transcript
write or a peer write of a buffer, with whether the write succeeded. -/
inductive BridgeAction
  | logWrite (chunk : List Nat) (ok : Bool)
  | peerWrite (chunk : List Nat) (ok : Bool)
deriving DecidableEq, Repr

/-- How the child-to-peer loop ends: `brokeClean` is the `break` on an
`*os.PathError` read, `returned e` is an early `return` with error `e`. -/
inductive LoopExit
  | brokeClean
  | returned (e : GoError)
deriving DecidableEq, Repr

/-- The child-to-peer loop of `handleSSHSession`, driven by the list of
per-iteration I/O results.  Returns the trace of writes performed and the
way the loop ended (`none` when the supplied results are exhausted with
the loop still blocked on the next read). -/
def bridgeLoop : List LoopStep → List BridgeAction × Option LoopExit
  | [] => ([], none)
  | step :: rest =>
    match step.readRes with
    | .pathError => ([], some .brokeClean)
    | .otherError m =>
      ([], some (.returned (.other ("failed to read from command: " ++ m))))
    | .ok data =>
      let c := chunkBuf data
      if step.logOk then
        if step.sessOk then
          let r := bridgeLoop rest
          (.logWrite c true :: .peerWrite c true :: r.1, r.2)
        else
          ([.logWrite c true, .peerWrite c false],
            some (.returned (.other "failed to write to session")))
      else
        ([.logWrite c false], some (.returned (.other "failed to write to log")))

/-- An accepted, authenticated session as seen by the handler: the session
id, the peer's public key, whether a PTY was requested, the requested
terminal type, the per-iteration I/O results of the bridge loop, the
child's `Wait` result, and whether `pty.Start` succeeds. -/
structure SessionInput where
  id : Nat
  key : Nat
  isPty : Bool
  term : String
  steps : List LoopStep
  wait : WaitResult
  ptyStartOk : Bool
deriving DecidableEq, Repr

/-- What one call of `handleSSHSession` did: the returned error (`none`
is Go `nil`), the trace of transcript/peer writes, whether the
"No PTY requested.\n" diagnostic was written to the peer, whether a child
process was spawned, and the environment given to the child. -/
structure BridgeResult where
  outcome : Option GoError
  actions : List BridgeAction
  wroteNoPtyDiag : Bool
  childSpawned : Bool
  childEnv : List String
deriving DecidableEq, Repr

/-- `os.Getenv("SHELL")` with fallback: empty means use `"bash"`. -/
def resolveShell (shellEnv : String) : String :=
  if shellEnv = "" then "bash" else shellEnv

/-- The child environment built by `handleSSHSession`: the parent
environment when `copyEnv` is set, then `TERM=<term>`. -/
def childEnvOf (parentEnv : List String) (copyEnv : Bool) (term : String) :
    List String :=
  (if copyEnv then parentEnv else []) ++ ["TERM=" ++ term]

/-- The error returned by `cmd.Wait()`: `nil` on clean exit, an
`*exec.ExitError` with the child's code on abnormal exit. -/
def waitOutcome : WaitResult → Option GoError
  | .clean => none
  | .abnormal c => some (.exitError c)

/-- `handleSSHSession` (part_002): rejects non-PTY sessions with a
diagnostic and a `nil` return, otherwise spawns the shell on a
pseudoterminal and runs the child-to-peer loop; after a clean `break` it
returns `cmd.Wait()`.  `none` when the supplied loop results do not
resolve the loop (the call would still be blocked reading). -/
def handleSSHSession (parentEnv : List String) (copyEnv : Bool)
    (s : SessionInput) : Option BridgeResult :=
  if s.isPty = false then
    some { outcome := none, actions := [], wroteNoPtyDiag := true,
           childSpawned := false, childEnv := [] }
  else if s.ptyStartOk = false then
    some { outcome := some (.other "failed to start pty"), actions := [],
           wroteNoPtyDiag := false, childSpawned := false,
           childEnv := childEnvOf parentEnv copyEnv s.term }
  else
    match bridgeLoop s.steps with
    | (_, none) => none
    | (tr, some .brokeClean) =>
      some { outcome := waitOutcome s.wait, actions := tr,
             wroteNoPtyDiag := false, childSpawned := true,
             childEnv := childEnvOf parentEnv copyEnv s.term }
    | (tr, some (.returned e)) =>
      some { outcome := some e, actions := tr, wroteNoPtyDiag := false,
             childSpawned := true,
             childEnv := childEnvOf parentEnv copyEnv s.term }

/-- `ssh.KeysEqual`: equality of the (marshalled) keys. -/
def keysEqual (a b : Nat) : Bool := a == b

/-- The `PublicKeyHandler` of `newOneTimeServer`: loop over the authorized
keys and accept exactly when one compares equal to the presented key. -/
def publicKeyHandler : List Nat → Nat → Bool
  | [], _ => false
  | k :: rest, key => if keysEqual key k then true else publicKeyHandler rest key

/-- State of the one-time server: the shared `sync.Once` gate, the
recorded `sessionErr`, whether `server.Close` has been called, and the ids
of the sessions for which `handleSSHSession` was invoked. -/
structure OneTimeServer where
  gate : GateState
  sessionErr : Option GoError
  closed : Bool
  handled : List Nat
deriving DecidableEq, Repr

/-- The server state right after `newOneTimeServer`. -/
def initialServer : OneTimeServer :=
  { gate := .Idle, sessionErr := none, closed := false, handled := [] }

/-- An event hitting the one-time server: a public-key authentication
attempt (the `PublicKeyHandler` callback), an accepted+authenticated
session invoking the session handler, or the timeout timer firing. -/
inductive OTSEvent
  | authAttempt (key : Nat)
  | sessionConn (s : SessionInput)
  | timeoutFire
deriving DecidableEq, Repr

/-- The error recorded as `ots.sessionErr` by the handler body.  A session
whose loop results do not resolve corresponds to a handler body that never
returns (and a run that never completes); no theorem depends on the value
chosen for that case. -/
def sessionOutcome (parentEnv : List String) (copyEnv : Bool)
    (s : SessionInput) : Option GoError :=
  match handleSSHSession parentEnv copyEnv s with
  | some r => r.outcome
  | none => none

/-- One step of the one-time server.  An authentication attempt mutates
nothing (the `PublicKeyHandler` only returns a verdict to the transport).
The session handler and the timeout body both run under `ots.once.Do`:
if the gate is `Idle` the body runs (bridging and recording the outcome,
or logging the timeout) and calls `server.Close()`; if the gate is already
`Closed` the event is discarded. -/
def otsStep (parentEnv : List String) (copyEnv : Bool) (st : OneTimeServer) :
    OTSEvent → OneTimeServer
  | .authAttempt _ => st
  | .timeoutFire =>
    match st.gate with
    | .Idle => { st with gate := .Closed, closed := true }
    | .Closed => st
  | .sessionConn s =>
    match st.gate with
    | .Idle =>
      { gate := .Closed,
        sessionErr := sessionOutcome parentEnv copyEnv s,
        closed := true,
        handled := st.handled ++ [s.id] }
    | .Closed => st

/-- Run the one-time server over a serialized interleaving of events. -/
def otsRun (parentEnv : List String) (copyEnv : Bool) :
    OneTimeServer → List OTSEvent → OneTimeServer
  | st, [] => st
  | st, ev :: rest => otsRun parentEnv copyEnv (otsStep parentEnv copyEnv st ev) rest

/-- Whether an event is one of the gate's two triggers (an event guarded
by `ots.once.Do`). -/
def isTrigger : OTSEvent → Bool
  | .authAttempt _ => false
  | .sessionConn _ => true
  | .timeoutFire => true

/-- The triggers whose guarded body actually executes along a trace: a
trigger arriving while the gate is `Idle` becomes the unique executor. -/
def executedTriggers (parentEnv : List String) (copyEnv : Bool) :
    OneTimeServer → List OTSEvent → List OTSEvent
  | _, [] => []
  | st, ev :: rest =>
    match isTrigger ev, st.gate with
    | true, .Idle =>
      ev :: executedTriggers parentEnv copyEnv (otsStep parentEnv copyEnv st ev) rest
    | _, _ => executedTriggers parentEnv copyEnv (otsStep parentEnv copyEnv st ev) rest

/-- The scan loop of `parseAuthorizedKeysFile` (part_000), over the lines
produced by the scanner; `parseKey` is `gossh.ParseAuthorizedKey`
(`none` on parse failure), `keys` is the accumulator.  The no-keys guard
fires only when a scanned line is empty while no key has been parsed yet. -/
def parseAuthorizedKeysLoop (parseKey : List Nat → Option Nat) :
    List (List Nat) → List Nat → Except String (List Nat)
  | [], keys => .ok keys
  | line :: rest, keys =>
    if keys.length = 0 ∧ line.length = 0 then
      .error "no keys supplied - either pass a file using -authorized-keys, or pipe them in"
    else
      match parseKey line with
      | none => .error ("failed to parse key on line " ++ toString keys.length)
      | some k => parseAuthorizedKeysLoop parseKey rest (keys ++ [k])

/-- `parseAuthorizedKeysFile` (part_000): scan all lines, then check
`scanner.Err()` (`scanErr`); an error inside the loop returns before that
check is reached. -/
def parseAuthorizedKeysFile (parseKey : List Nat → Option Nat)
    (lines : List (List Nat)) (scanErr : Option String) :
    Except String (List Nat) :=
  match parseAuthorizedKeysLoop parseKey lines [] with
  | .error e => .error e
  | .ok keys =>
    match scanErr with
    | some e => .error ("scanning file failed: " ++ e)
    | none => .ok keys

/-- The error `ots.server.ListenAndServe()` (hence
`oneTimeServer.ListenAndServe`) returns to `run`: `ssh.ErrServerClosed`
after `server.Close()` was called (by the session handler or the timeout
body), some other listen/serve error, or `nil`. -/
inductive ListenOutcome
  | errServerClosed
  | otherErr (m : String)
  | noErr
deriving DecidableEq, Repr

/-- The tail of `run` (part_000, lines 172-185): on `ssh.ErrServerClosed`
return `nil`; on another serve error return it; only when
`ListenAndServe` returned `nil` is `server.Close()` attempted and
`server.SessionError()` returned. -/
def runAfterListen (lr : ListenOutcome) (closeOk : Bool)
    (sessionErr : Option GoError) : Option GoError :=
  match lr with
  | .errServerClosed => none
  | .otherErr m => some (.other m)
  | .noErr => if closeOk then sessionErr else some (.other "failed to ")

/-- The exit status of the process as computed by `main` (part_000, lines
115-125): `run` returning `nil` falls through to a normal exit 0;
otherwise `code` starts at 0 and is replaced by the child's exit code only
when `errors.As` finds an `*exec.ExitError`, and `os.Exit(code)` runs. -/
def mainExitCode : Option GoError → Nat
  | none => 0
  | some (.exitError c) => c
  | some (.other _) => 0

/-- The buffers passed to `logWriter.Write` along a bridge trace, in
order. -/
def loggedChunks : List BridgeAction → List (List Nat)
  | [] => []
  | .logWrite c _ :: rest => c :: loggedChunks rest
  | .peerWrite _ _ :: rest => loggedChunks rest

/-- The buffers whose `logWriter.Write` succeeded, in order. -/
def loggedOkChunks : List BridgeAction → List (List Nat)
  | [] => []
  | .logWrite c true :: rest => c :: loggedOkChunks rest
  | .logWrite _ false :: rest => loggedOkChunks rest
  | .peerWrite _ _ :: rest => loggedOkChunks rest

/-- The buffers passed to `s.Write` along a bridge trace, in order. -/
def peerChunks : List BridgeAction → List (List Nat)
  | [] => []
  | .logWrite _ _ :: rest => peerChunks rest
  | .peerWrite c _ :: rest => c :: peerChunks rest

/-- The buffers actually read (and padded) by the loop, in read order:
a read happens on each iteration until the first iteration that does not
continue the loop. -/
def readChunks : List LoopStep → List (List Nat)
  | [] => []
  | step :: rest =>
    match step.readRes with
    | .ok d => chunkBuf d :: (if step.logOk && step.sessOk then readChunks rest else [])
    | .pathError => []
    | .otherError _ => []

/-- Whether a loop iteration continues to the next read: the read
succeeded and both writes succeeded. -/
def stepContinues (st : LoopStep) : Bool :=
  match st.readRes with
  | .ok _ => st.logOk && st.sessOk
  | .pathError => false
  | .otherError _ => false

/-- A PTY session with the given loop results and child wait result. -/
def mkPtySession (steps : List LoopStep) (w : WaitResult) : SessionInput :=
  { id := 0, key := 0, isPty := true, term := "xterm", steps := steps,
    wait := w, ptyStartOk := true }

/-! ## Helper lemmas -/

/-- Once the gate is `Closed`, a step leaves the server state unchanged. -/
lemma otsStep_closed (parentEnv : List String) (copyEnv : Bool)
    (st : OneTimeServer) (ev : OTSEvent) (h : st.gate = .Closed) :
    otsStep parentEnv copyEnv st ev = st := by
  cases ev <;> simp [otsStep, h]

/-- Once the gate is `Closed`, a whole trace leaves the state unchanged. -/
lemma otsRun_closed (parentEnv : List String) (copyEnv : Bool)
    (st : OneTimeServer) (evs : List OTSEvent) (h : st.gate = .Closed) :
    otsRun parentEnv copyEnv st evs = st := by
  induction evs with
  | nil => rfl
  | cons ev rest ih =>
    rw [otsRun, otsStep_closed parentEnv copyEnv st ev h]
    exact ih

/-- Once the gate is `Closed`, no trigger body executes anymore. -/
lemma executedTriggers_closed (parentEnv : List String) (copyEnv : Bool)
    (st : OneTimeServer) (evs : List OTSEvent) (h : st.gate = .Closed) :
    executedTriggers parentEnv copyEnv st evs = [] := by
  induction evs with
  | nil => rfl
  | cons ev rest ih =>
    rw [executedTriggers]
    rw [h]
    have hstep : otsStep parentEnv copyEnv st ev = st :=
      otsStep_closed parentEnv copyEnv st ev h
    cases hT : isTrigger ev <;> simp only [hstep] <;> exact ih

/-- A trigger arriving at an `Idle` gate closes it. -/
lemma otsStep_trigger_closes (parentEnv : List String) (copyEnv : Bool)
    (st : OneTimeServer) (ev : OTSEvent) (hT : isTrigger ev = true)
    (hI : st.gate = .Idle) :
    (otsStep parentEnv copyEnv st ev).gate = .Closed := by
  cases ev with
  | authAttempt k => simp [isTrigger] at hT
  | sessionConn s => simp [otsStep, hI]
  | timeoutFire => simp [otsStep, hI]

/-- An authentication attempt never changes the server state. -/
lemma otsStep_auth (parentEnv : List String) (copyEnv : Bool)
    (st : OneTimeServer) (k : Nat) :
    otsStep parentEnv copyEnv st (.authAttempt k) = st := rfl

/-- The `PublicKeyHandler` accepts exactly the members of the authorized
set. -/
lemma publicKeyHandler_iff_mem (keys : List Nat) (k : Nat) :
    publicKeyHandler keys k = true ↔ k ∈ keys := by
  induction keys with
  | nil => simp [publicKeyHandler]
  | cons a rest ih =>
    by_cases h : k = a
    · simp [publicKeyHandler, keysEqual, h]
    · simp [publicKeyHandler, keysEqual, h, ih]

/-- Fully successful iterations pass the loop on to the remaining steps
without changing how it ends. -/
lemma bridgeLoop_snd_append (good l : List LoopStep)
    (h : ∀ st ∈ good, stepContinues st = true) :
    (bridgeLoop (good ++ l)).2 = (bridgeLoop l).2 := by
  induction good with
  | nil => rfl
  | cons g rest ih =>
    have hg : stepContinues g = true := h g (List.mem_cons_self g rest)
    have hrest : ∀ st ∈ rest, stepContinues st = true :=
      fun st hst => h st (List.mem_cons_of_mem g hst)
    cases hr : g.readRes with
    | ok d =>
      have hlog : g.logOk = true := by
        rw [stepContinues, hr] at hg
        exact (Bool.and_eq_true_iff.mp hg).1
      have hsess : g.sessOk = true := by
        rw [stepContinues, hr] at hg
        exact (Bool.and_eq_true_iff.mp hg).2
      simp only [List.cons_append, bridgeLoop, hr, hlog, hsess, if_true]
      exact ih hrest
    | pathError => rw [stepContinues, hr] at hg; exact absurd hg (by simp)
    | otherError m => rw [stepContinues, hr] at hg; exact absurd hg (by simp)

/-- Along a trace containing no session callback, no session is ever
handled, and the gate can only have been closed by the timeout trigger. -/
lemma otsRun_no_sessions (parentEnv : List String) (copyEnv : Bool)
    (evs : List OTSEvent) (st : OneTimeServer)
    (h : ∀ s, OTSEvent.sessionConn s ∈ evs → False) :
    (otsRun parentEnv copyEnv st evs).handled = st.handled ∧
    ((otsRun parentEnv copyEnv st evs).gate = .Closed →
      st.gate = .Closed ∨ OTSEvent.timeoutFire ∈ evs) := by
  induction evs generalizing st with
  | nil => exact ⟨rfl, fun hg => .inl hg⟩
  | cons ev rest ih =>
    have hrest : ∀ s, OTSEvent.sessionConn s ∈ rest → False :=
      fun s hs => h s (List.mem_cons_of_mem ev hs)
    cases ev with
    | sessionConn s => exact (h s (List.mem_cons_self _ _)).elim
    | authAttempt k =>
      rw [otsRun, otsStep_auth]
      obtain ⟨h1, h2⟩ := ih st hrest
      exact ⟨h1, fun hg =>
        (h2 hg).elim .inl (fun ht => .inr (List.mem_cons_of_mem _ ht))⟩
    | timeoutFire =>
      rw [otsRun]
      have hh : (otsStep parentEnv copyEnv st .timeoutFire).handled = st.handled := by
        cases hg : st.gate <;> simp [otsStep, hg]
      obtain ⟨h1, _⟩ := ih (otsStep parentEnv copyEnv st .timeoutFire) hrest
      exact ⟨h1.trans hh, fun _ => .inr (List.mem_cons_self _ _)⟩

/-! ## Claim theorems -/

/-- Claim C3: for every serialized interleaving of the connection-accepted
and timeout-elapsed triggers fired from independently scheduled tasks
(any event list containing at least one trigger, hitting an Idle gate),
exactly one trigger's guarded body executes — never zero, never two —
because both triggers run under the single shared one-shot guard. -/
theorem C3_exactly_one_trigger_executes (parentEnv : List String)
    (copyEnv : Bool) (st : OneTimeServer) (hIdle : st.gate = .Idle)
    (evs : List OTSEvent) (hTrig : ∃ ev ∈ evs, isTrigger ev = true) :
    (executedTriggers parentEnv copyEnv st evs).length = 1 := by
  induction evs generalizing st with
  | nil => simp at hTrig
  | cons ev rest ih =>
    cases hT : isTrigger ev with
    | true =>
      simp only [executedTriggers, hT, hIdle, List.length_cons]
      rw [executedTriggers_closed parentEnv copyEnv _ rest
        (otsStep_trigger_closes parentEnv copyEnv st ev hT hIdle)]
      rfl
    | false =>
      cases ev with
      | sessionConn s => simp [isTrigger] at hT
      | timeoutFire => simp [isTrigger] at hT
      | authAttempt k =>
        have hstep : otsStep parentEnv copyEnv st (.authAttempt k) = st := rfl
        simp only [executedTriggers, isTrigger, hIdle, hstep]
        apply ih st hIdle
        obtain ⟨e, he, htr⟩ := hTrig
        rcases List.mem_cons.mp he with rfl | hmem
        · simp [isTrigger] at htr
        · exact ⟨e, hmem, htr⟩

/-- Claim C3 witness: both triggers fired, connection first; exactly one
guarded body executes. -/
theorem C3_witness :
    (executedTriggers [] true initialServer
      [OTSEvent.sessionConn (mkPtySession [⟨.pathError, true, true⟩] .clean),
        OTSEvent.timeoutFire]).length = 1 :=
  C3_exactly_one_trigger_executes [] true initialServer rfl _
    ⟨OTSEvent.sessionConn (mkPtySession [⟨.pathError, true, true⟩] .clean),
      List.mem_cons_self _ _, rfl⟩

/-- Claim C4: once the gate has reached Closed, any later events — in
particular later connection-accepted events — never invoke the bridge
again: the whole server state (handled sessions, recorded outcome) is
unchanged and no trigger body executes. -/
theorem C4_closed_gate_never_bridges (parentEnv : List String)
    (copyEnv : Bool) (st : OneTimeServer) (hC : st.gate = .Closed)
    (evs : List OTSEvent) :
    otsRun parentEnv copyEnv st evs = st ∧
      executedTriggers parentEnv copyEnv st evs = [] :=
  ⟨otsRun_closed parentEnv copyEnv st evs hC,
    executedTriggers_closed parentEnv copyEnv st evs hC⟩

/-- Claim C4 witness: a fully handshaken PTY session arriving at a closed
gate leaves the state untouched and executes no body. -/
theorem C4_witness :
    otsRun [] true ⟨.Closed, none, true, [7]⟩
        [OTSEvent.sessionConn (mkPtySession [⟨.pathError, true, true⟩] .clean)]
      = ⟨.Closed, none, true, [7]⟩ ∧
    executedTriggers [] true ⟨.Closed, none, true, [7]⟩
        [OTSEvent.sessionConn (mkPtySession [⟨.pathError, true, true⟩] .clean)]
      = [] :=
  C4_closed_gate_never_bridges [] true _ rfl _

/-- Claim C7: a session that did not request an interactive terminal gets
the short "No PTY requested" diagnostic written to the peer and the
handler returns immediately with nil; no child process is spawned and no
bridge write happens. -/
theorem C7_no_pty_diagnostic (parentEnv : List String) (copyEnv : Bool)
    (s : SessionInput) (hs : s.isPty = false) :
    handleSSHSession parentEnv copyEnv s =
      some { outcome := none, actions := [], wroteNoPtyDiag := true,
             childSpawned := false, childEnv := [] } := by
  simp [handleSSHSession, hs]

/-- Claim C7 witness: concrete non-PTY session. -/
theorem C7_witness :
    handleSSHSession ["HOME=/root"] true
        { id := 1, key := 9, isPty := false, term := "", steps := [],
          wait := .clean, ptyStartOk := true } =
      some { outcome := none, actions := [], wroteNoPtyDiag := true,
             childSpawned := false, childEnv := [] } :=
  C7_no_pty_diagnostic ["HOME=/root"] true _ rfl

/-- Claim C8: a connection presenting a key outside the authorized set is
rejected by the authorization predicate, the rejection touches nothing in
the server (the gate stays Idle), and a subsequent peer presenting an
authorized key is accepted and serviced. -/
theorem C8_auth_failure_keeps_gate (parentEnv : List String)
    (copyEnv : Bool) (keys : List Nat) (k3 : Nat) (h3 : k3 ∉ keys)
    (st : OneTimeServer) (hI : st.gate = .Idle) (s : SessionInput)
    (h1 : s.key ∈ keys) :
    publicKeyHandler keys k3 = false ∧
    otsStep parentEnv copyEnv st (.authAttempt k3) = st ∧
    (otsStep parentEnv copyEnv st (.authAttempt k3)).gate = .Idle ∧
    publicKeyHandler keys s.key = true ∧
    (otsStep parentEnv copyEnv (otsStep parentEnv copyEnv st (.authAttempt k3))
        (.sessionConn s)).handled = st.handled ++ [s.id] := by
  refine ⟨?_, rfl, hI, (publicKeyHandler_iff_mem keys s.key).mpr h1, ?_⟩
  · cases h : publicKeyHandler keys k3
    · rfl
    · exact absurd ((publicKeyHandler_iff_mem keys k3).mp h) h3
  · rw [otsStep_auth]
    simp [otsStep, hI]

/-- Claim C8 witness: authorized set {1, 2}, key 3 rejected with the gate
untouched, then a session presenting key 1 is serviced. -/
theorem C8_witness :
    publicKeyHandler [1, 2] 3 = false ∧
    otsStep [] true initialServer (.authAttempt 3) = initialServer ∧
    (otsStep [] true initialServer (.authAttempt 3)).gate = .Idle ∧
    publicKeyHandler [1, 2] 1 = true ∧
    (otsStep [] true (otsStep [] true initialServer (.authAttempt 3))
        (.sessionConn
          { id := 4, key := 1, isPty := true, term := "xterm",
            steps := [⟨.pathError, true, true⟩], wait := .clean,
            ptyStartOk := true })).handled = [] ++ [4] :=
  C8_auth_failure_keeps_gate [] true [1, 2] 3 (by decide) initialServer rfl
    { id := 4, key := 1, isPty := true, term := "xterm",
      steps := [⟨.pathError, true, true⟩], wait := .clean,
      ptyStartOk := true } (by decide)

/-- Claim C9: an accepted, authenticated connection that does not request
a PTY still consumes the single lifetime opportunity: the one-shot guard
fires for it, the recorded outcome is nil (clean), the server is shut
down, and no later connection is ever handled. -/
theorem C9_no_pty_consumes_gate (parentEnv : List String) (copyEnv : Bool)
    (st : OneTimeServer) (hI : st.gate = .Idle) (s : SessionInput)
    (hs : s.isPty = false) :
    (otsStep parentEnv copyEnv st (.sessionConn s)).gate = .Closed ∧
    (otsStep parentEnv copyEnv st (.sessionConn s)).sessionErr = none ∧
    (otsStep parentEnv copyEnv st (.sessionConn s)).closed = true ∧
    (otsStep parentEnv copyEnv st (.sessionConn s)).handled = st.handled ++ [s.id] ∧
    ∀ evs, (otsRun parentEnv copyEnv
        (otsStep parentEnv copyEnv st (.sessionConn s)) evs).handled
      = st.handled ++ [s.id] := by
  have hout : sessionOutcome parentEnv copyEnv s = none := by
    simp [sessionOutcome, handleSSHSession, hs]
  have hstep : otsStep parentEnv copyEnv st (.sessionConn s) =
      { gate := .Closed, sessionErr := none, closed := true,
        handled := st.handled ++ [s.id] } := by
    simp [otsStep, hI, hout]
  rw [hstep]
  refine ⟨rfl, rfl, rfl, rfl, fun evs => ?_⟩
  rw [otsRun_closed _ _ _ _ rfl]

/-- Claim C9 witness: a concrete no-PTY session consumes the gate (outcome
nil), and a later PTY session is not handled. -/
theorem C9_witness :
    (otsStep [] true initialServer (.sessionConn
        { id := 3, key := 1, isPty := false, term := "", steps := [],
          wait := .clean, ptyStartOk := true })).gate = .Closed ∧
    (otsStep [] true initialServer (.sessionConn
        { id := 3, key := 1, isPty := false, term := "", steps := [],
          wait := .clean, ptyStartOk := true })).sessionErr = none ∧
    (otsStep [] true initialServer (.sessionConn
        { id := 3, key := 1, isPty := false, term := "", steps := [],
          wait := .clean, ptyStartOk := true })).closed = true ∧
    (otsStep [] true initialServer (.sessionConn
        { id := 3, key := 1, isPty := false, term := "", steps := [],
          wait := .clean, ptyStartOk := true })).handled = [] ++ [3] ∧
    ∀ evs, (otsRun [] true (otsStep [] true initialServer (.sessionConn
        { id := 3, key := 1, isPty := false, term := "", steps := [],
          wait := .clean, ptyStartOk := true })) evs).handled = [] ++ [3] :=
  C9_no_pty_consumes_gate [] true initialServer rfl _ rfl

/-- Claim C10: a key source with no lines at all parses to an empty key
set with no error (the no-keys guard fires only on an empty first scanned
line, not on zero lines); the empty set rejects every presented key, so a
run whose session callbacks are all authenticated against the empty set
handles no session and can close the gate only through the timeout. -/
theorem C10_empty_source_timeout_only :
    (∀ parseKey : List Nat → Option Nat,
        parseAuthorizedKeysFile parseKey [] none = .ok []) ∧
    (∀ k, publicKeyHandler [] k = false) ∧
    (∀ (parentEnv : List String) (copyEnv : Bool) (evs : List OTSEvent),
      (∀ s : SessionInput, OTSEvent.sessionConn s ∈ evs →
          publicKeyHandler [] s.key = true) →
      (otsRun parentEnv copyEnv initialServer evs).handled = [] ∧
      ((otsRun parentEnv copyEnv initialServer evs).gate = .Closed →
        OTSEvent.timeoutFire ∈ evs)) := by
  refine ⟨fun pk => rfl, fun k => rfl, fun parentEnv copyEnv evs hWF => ?_⟩
  have hNo : ∀ s, OTSEvent.sessionConn s ∈ evs → False := by
    intro s hs
    have hacc := hWF s hs
    simp [publicKeyHandler] at hacc
  obtain ⟨h1, h2⟩ := otsRun_no_sessions parentEnv copyEnv evs initialServer hNo
  exact ⟨h1, fun hg => (h2 hg).resolve_left (by decide)⟩

/-- Claim C10 witness: a trace with one rejected attempt and the timeout;
nothing is handled and the gate closes via the timeout. -/
theorem C10_witness :
    (otsRun [] true initialServer
        [OTSEvent.authAttempt 5, OTSEvent.timeoutFire]).handled = [] ∧
    ((otsRun [] true initialServer
        [OTSEvent.authAttempt 5, OTSEvent.timeoutFire]).gate = .Closed →
      OTSEvent.timeoutFire ∈ [OTSEvent.authAttempt 5, OTSEvent.timeoutFire]) :=
  C10_empty_source_timeout_only.2.2 [] true _ (by intro s hs; simp at hs)

/-- Claim C5: after any number of fully successful iterations, a
pseudoterminal read failing with the device-gone `*os.PathError` ends the
loop normally and the handler returns `cmd.Wait()` — nil on clean exit,
the distinct exit-status error on abnormal exit; any other read failure,
and any transcript or peer write failure, is returned as a bridge I/O
error. -/
theorem C5_loop_end_classification (parentEnv : List String)
    (copyEnv : Bool) (good : List LoopStep)
    (hgood : ∀ st ∈ good, stepContinues st = true) (bad : LoopStep)
    (rest : List LoopStep) (w : WaitResult) :
    (bad.readRes = .pathError →
      (handleSSHSession parentEnv copyEnv
          (mkPtySession (good ++ bad :: rest) w)).map (fun r => r.outcome)
        = some (waitOutcome w)) ∧
    (∀ m, bad.readRes = .otherError m →
      (handleSSHSession parentEnv copyEnv
          (mkPtySession (good ++ bad :: rest) w)).map (fun r => r.outcome)
        = some (some (.other ("failed to read from command: " ++ m)))) ∧
    (∀ d, bad.readRes = .ok d → bad.logOk = false →
      (handleSSHSession parentEnv copyEnv
          (mkPtySession (good ++ bad :: rest) w)).map (fun r => r.outcome)
        = some (some (.other "failed to write to log"))) ∧
    (∀ d, bad.readRes = .ok d → bad.logOk = true → bad.sessOk = false →
      (handleSSHSession parentEnv copyEnv
          (mkPtySession (good ++ bad :: rest) w)).map (fun r => r.outcome)
        = some (some (.other "failed to write to session"))) := by
  rcases hBL : bridgeLoop (good ++ bad :: rest) with ⟨tr, ex⟩
  have hsnd : ex = (bridgeLoop (bad :: rest)).2 := by
    have h := bridgeLoop_snd_append good (bad :: rest) hgood
    rw [hBL] at h
    exact h
  refine ⟨?_, ?_, ?_, ?_⟩
  · intro hb
    have hex : ex = some .brokeClean := by rw [hsnd]; simp [bridgeLoop, hb]
    subst hex
    simp [handleSSHSession, mkPtySession, hBL]
  · intro m hb
    have hex : ex = some (.returned (.other ("failed to read from command: " ++ m))) := by
      rw [hsnd]; simp [bridgeLoop, hb]
    subst hex
    simp [handleSSHSession, mkPtySession, hBL]
  · intro d hb hlog
    have hex : ex = some (.returned (.other "failed to write to log")) := by
      rw [hsnd]; simp [bridgeLoop, hb, hlog]
    subst hex
    simp [handleSSHSession, mkPtySession, hBL]
  · intro d hb hlog hsess
    have hex : ex = some (.returned (.other "failed to write to session")) := by
      rw [hsnd]; simp [bridgeLoop, hb, hlog, hsess]
    subst hex
    simp [handleSSHSession, mkPtySession, hBL]

/-- Claim C5 witness: one good chunk, then the device-gone read, child
exits abnormally with status 2: the handler reports the exit-status
error. -/
theorem C5_witness :
    (handleSSHSession [] true
        (mkPtySession ([⟨.ok [7], true, true⟩] ++ ⟨.pathError, true, true⟩ :: [])
          (.abnormal 2))).map (fun r => r.outcome)
      = some (waitOutcome (.abnormal 2)) :=
  (C5_loop_end_classification [] true [⟨.ok [7], true, true⟩] (by decide)
    ⟨.pathError, true, true⟩ [] (.abnormal 2)).1 rfl

/-- Claim C6: along the child-to-peer loop trace, every peer write is
immediately preceded by the successful transcript write of the same
buffer (so a buffer is never sent to the peer unless its transcript write
already succeeded), the transcript receives exactly the read buffers in
read order, and the peer receives exactly the successfully logged buffers
in order. -/
theorem C6_log_before_peer (steps : List LoopStep) :
    (∀ j c ok, (bridgeLoop steps).1.get? j = some (.peerWrite c ok) →
      ∃ i, j = i + 1 ∧ (bridgeLoop steps).1.get? i = some (.logWrite c true)) ∧
    loggedChunks (bridgeLoop steps).1 = readChunks steps ∧
    peerChunks (bridgeLoop steps).1 = loggedOkChunks (bridgeLoop steps).1 := by
  induction steps with
  | nil => exact ⟨fun j c ok h => by simp [bridgeLoop] at h, rfl, rfl⟩
  | cons step rest ih =>
    cases hr : step.readRes with
    | pathError =>
      refine ⟨fun j c ok h => ?_, ?_, ?_⟩
      · simp [bridgeLoop, hr] at h
      · simp [bridgeLoop, hr, loggedChunks, readChunks]
      · simp [bridgeLoop, hr, peerChunks, loggedOkChunks]
    | otherError m =>
      refine ⟨fun j c ok h => ?_, ?_, ?_⟩
      · simp [bridgeLoop, hr] at h
      · simp [bridgeLoop, hr, loggedChunks, readChunks]
      · simp [bridgeLoop, hr, peerChunks, loggedOkChunks]
    | ok d =>
      cases hlog : step.logOk with
      | false =>
        refine ⟨fun j c ok h => ?_, ?_, ?_⟩
        · rcases j with _ | j
          · simp [bridgeLoop, hr, hlog] at h
          · simp [bridgeLoop, hr, hlog] at h
        · simp [bridgeLoop, hr, hlog, loggedChunks, readChunks]
        · simp [bridgeLoop, hr, hlog, peerChunks, loggedOkChunks]
      | true =>
        cases hsess : step.sessOk with
        | false =>
          refine ⟨fun j c ok h => ?_, ?_, ?_⟩
          · have hfst : (bridgeLoop (step :: rest)).1
                = [.logWrite (chunkBuf d) true, .peerWrite (chunkBuf d) false] := by
              simp [bridgeLoop, hr, hlog, hsess]
            rw [hfst] at h
            rcases j with _ | j
            · simp at h
            · rcases j with _ | j
              · simp only [List.get?_cons_succ, List.get?_cons_zero,
                  Option.some.injEq, BridgeAction.peerWrite.injEq] at h
                obtain ⟨hc, _⟩ := h
                subst hc
                exact ⟨0, rfl, by rw [hfst]; rfl⟩
              · simp at h
          · simp [bridgeLoop, hr, hlog, hsess, loggedChunks, readChunks]
          · simp [bridgeLoop, hr, hlog, hsess, peerChunks, loggedOkChunks]
        | true =>
          have hfst : (bridgeLoop (step :: rest)).1
              = .logWrite (chunkBuf d) true :: .peerWrite (chunkBuf d) true
                  :: (bridgeLoop rest).1 := by
            simp [bridgeLoop, hr, hlog, hsess]
          refine ⟨fun j c ok h => ?_, ?_, ?_⟩
          · rw [hfst] at h
            rcases j with _ | j
            · simp at h
            · rcases j with _ | j
              · simp only [List.get?_cons_succ, List.get?_cons_zero,
                  Option.some.injEq, BridgeAction.peerWrite.injEq] at h
                obtain ⟨hc, _⟩ := h
                subst hc
                exact ⟨0, rfl, by rw [hfst]; rfl⟩
              · simp only [List.get?_cons_succ] at h
                obtain ⟨i, hji, hgi⟩ := ih.1 j c ok h
                refine ⟨i + 2, by omega, ?_⟩
                rw [hfst]
                simpa [List.get?_cons_succ] using hgi
          · rw [hfst]
            simp only [loggedChunks, readChunks, hr, hlog, hsess]
            rw [ih.2.1]
            simp
          · rw [hfst]
            simp only [peerChunks, loggedOkChunks]
            rw [ih.2.2]

/-- Claim C6 witness: with one good chunk then the device-gone read, the
peer write at index 1 is immediately preceded by the successful
transcript write of the same buffer at index 0. -/
theorem C6_witness :
    ∃ i, 1 = i + 1 ∧
      (bridgeLoop [⟨.ok [7], true, true⟩, ⟨.pathError, true, true⟩]).1.get? i
        = some (.logWrite (chunkBuf [7]) true) :=
  (C6_log_before_peer [⟨.ok [7], true, true⟩, ⟨.pathError, true, true⟩]).1
    1 (chunkBuf [7]) true rfl

/-- Claim C2 evidence: the read count of `r.Read(b)` is discarded and the
whole zero-padded 1024-byte buffer is written, so a child that produces
the 2 bytes "hi" gets a 1024-byte chunk (2 data bytes plus 1022 zero
bytes) appended to the transcript and written to the peer — not exactly
the 2 produced bytes. -/
theorem C2_padded_write_evidence :
    (handleSSHSession [] true
        (mkPtySession [⟨.ok [104, 105], true, true⟩, ⟨.pathError, true, true⟩]
          .clean)).map (fun r => loggedChunks r.actions)
      = some [chunkBuf [104, 105]] ∧
    (handleSSHSession [] true
        (mkPtySession [⟨.ok [104, 105], true, true⟩, ⟨.pathError, true, true⟩]
          .clean)).map (fun r => peerChunks r.actions)
      = some [chunkBuf [104, 105]] ∧
    (chunkBuf [104, 105]).length = 1024 ∧
    chunkBuf [104, 105] ≠ [104, 105] := by
  have hlen : (chunkBuf [104, 105]).length = 1024 := by
    simp only [chunkBuf, List.length_append, List.length_replicate]
    decide
  refine ⟨rfl, rfl, hlen, fun h => ?_⟩
  have hl := congrArg List.length h
  rw [hlen] at hl
  exact absurd hl (by decide)

/-- Claim C1 evidence: a bridged session whose child exits abnormally with
status 3 records the exit error and closes the server; `ListenAndServe`
then returns `ssh.ErrServerClosed`, on which `run` returns nil — the
recorded outcome is discarded before `return server.SessionError()` is
ever reached — and `main` exits 0 instead of 3.  `main` also exits 0 for
a non-`ExitError` unrecoverable error, because `code` starts at 0 and is
only replaced when `errors.As` finds an `*exec.ExitError`. -/
theorem C1_outcome_discarded_evidence :
    (otsRun [] true initialServer
        [.sessionConn (mkPtySession [⟨.pathError, true, true⟩]
          (.abnormal 3))]).sessionErr = some (.exitError 3) ∧
    (otsRun [] true initialServer
        [.sessionConn (mkPtySession [⟨.pathError, true, true⟩]
          (.abnormal 3))]).closed = true ∧
    runAfterListen .errServerClosed true
        (otsRun [] true initialServer
          [.sessionConn (mkPtySession [⟨.pathError, true, true⟩]
            (.abnormal 3))]).sessionErr = none ∧
    mainExitCode (runAfterListen .errServerClosed true
        (otsRun [] true initialServer
          [.sessionConn (mkPtySession [⟨.pathError, true, true⟩]
            (.abnormal 3))]).sessionErr) = 0 ∧
    mainExitCode (some (.other "failed to open log file at otssh.log")) = 0 :=
  ⟨rfl, rfl, rfl, rfl, rfl⟩

end Otsshd
